import Mathlib

/-!
Verification of the PixelWiz core: the operation catalog
(`src/core/image_processor.py`) and the dispatch / batch layer
(`src/core/threading_manager.py`).

Images are numpy `uint8` arrays: either 3-dimensional
(height × width × channels) or 2-dimensional (grayscale).  They are embedded
as a shape record together with a pixel function; `channels = none`
represents a 2-dimensional array.  `uint8` samples are natural numbers, with
well-formedness (`Image.Wf`) bounding them by 255.  Python floats are
embedded as rationals; every computation so embedded is exact in the float
range encountered, and the one place where float interpolation matters
(`warpAffineDeg0`) is documented at its definition.
-/

structure Image where
  height : Nat
  width : Nat
  channels : Option Nat
  pix : Nat → Nat → Nat → Nat

/-- Number of samples addressed per pixel: a 2-dimensional grayscale array
(`channels = none`) stores one sample per pixel. -/
def Image.chCount (img : Image) : Nat := img.channels.getD 1

/-- Pixel-identity: equal shape, equal channel layout, and equal samples at
every in-range coordinate. -/
def ImEq (a b : Image) : Prop :=
  a.height = b.height ∧ a.width = b.width ∧ a.channels = b.channels ∧
    ∀ y < a.height, ∀ x < a.width, ∀ c < a.chCount, a.pix y x c = b.pix y x c

/-- A `uint8` buffer: every in-range sample is at most 255. -/
def Image.Wf (img : Image) : Prop :=
  ∀ y < img.height, ∀ x < img.width, ∀ c < img.chCount, img.pix y x c ≤ 255

instance (a b : Image) : Decidable (ImEq a b) :=
  decidable_of_iff
    (a.height = b.height ∧ a.width = b.width ∧ a.channels = b.channels ∧
      ∀ y < a.height, ∀ x < a.width, ∀ c < a.chCount, a.pix y x c = b.pix y x c)
    Iff.rfl

instance (img : Image) : Decidable img.Wf :=
  decidable_of_iff
    (∀ y < img.height, ∀ x < img.width, ∀ c < img.chCount, img.pix y x c ≤ 255)
    Iff.rfl

/-- `ImageProcessor.flip_image`: `cv2.flip` with flip code 1 (mirror the x
axis) when `horizontal`, flip code 0 (mirror the y axis) otherwise. -/
def flip_image (img : Image) (horizontal : Bool) : Image :=
  if horizontal then
    { img with pix := fun y x c => img.pix y (img.width - 1 - x) c }
  else
    { img with pix := fun y x c => img.pix (img.height - 1 - y) x c }

/-- `cv2.rotate` with `ROTATE_90_CLOCKWISE`: output shape is the transpose of
the input shape and `dst[y][x] = src[h-1-x][y]`. -/
def rot90cw (img : Image) : Image :=
  { height := img.width, width := img.height, channels := img.channels,
    pix := fun y x c => img.pix (img.height - 1 - x) y c }

/-- `cv2.rotate` with `ROTATE_180`: `dst[y][x] = src[h-1-y][w-1-x]`. -/
def rot180 (img : Image) : Image :=
  { img with pix := fun y x c => img.pix (img.height - 1 - y) (img.width - 1 - x) c }

/-- `cv2.rotate` with `ROTATE_90_COUNTERCLOCKWISE`: output shape is the
transpose of the input shape and `dst[y][x] = src[x][w-1-y]`. -/
def rot90ccw (img : Image) : Image :=
  { height := img.width, width := img.height, channels := img.channels,
    pix := fun y x c => img.pix x (img.width - 1 - y) c }

/-- `ImageProcessor.rotate_image`: fast exact paths for 90/180/270; any other
angle falls through to `cv2.getRotationMatrix2D` + `cv2.warpAffine`, an
external vision-library call taken here as the parameter `warpAffine`.
`warpAffineDeg0` below gives that call's exact value at angle 0, the only
angle at which any theorem in this development evaluates it. -/
def rotate_image (warpAffine : Image → ℚ → Image) (img : Image) (angle : ℚ) : Image :=
  if angle = 90 then rot90cw img
  else if angle = 180 then rot180 img
  else if angle = 270 then rot90ccw img
  else warpAffine img angle

/-- Resolution of a single numpy basic-slice endpoint on an axis of length
`n`: a negative index is taken from the end, then the result is clamped to
`[0, n]`. -/
def resolveIdx (n : Nat) (i : Int) : Nat :=
  (max 0 (min (if i < 0 then i + n else i) (n : Int))).toNat

/-- Length of the numpy slice `start:stop` on an axis of length `n`. -/
def sliceLen (n : Nat) (start stop : Int) : Nat :=
  resolveIdx n stop - resolveIdx n start

/-- `ImageProcessor.crop_image`: clamps `x`/`y` into the image, shrinks
`width`/`height` to the remaining extent, then takes the numpy slice
`image[y:y+height, x:x+width]` (numpy slice endpoint semantics, including
the wrap-around of negative endpoints). -/
def crop_image (img : Image) (x y width height : Int) : Image :=
  let w : Int := img.width
  let h : Int := img.height
  let x1 := max 0 (min x w)
  let y1 := max 0 (min y h)
  let w1 := min width (w - x1)
  let h1 := min height (h - y1)
  { height := sliceLen img.height y1 (y1 + h1),
    width := sliceLen img.width x1 (x1 + w1),
    channels := img.channels,
    pix := fun j i c => img.pix (resolveIdx img.height y1 + j) (resolveIdx img.width x1 + i) c }

/-- numpy `np.clip` on one sample, over exact rationals. -/
def clipQ (q lo hi : ℚ) : ℚ := max lo (min q hi)

/-- `ImageProcessor.adjust_brightness_contrast`:
`clip(float(image) * contrast + brightness, 0, 255).astype(uint8)`.
Python `float32` arithmetic is embedded as exact rationals (exact whenever
the claim under proof evaluates it: integer samples, contrast 1, brightness
0); `astype(uint8)` truncates toward zero, which on the clipped nonnegative
value is the floor. -/
def adjust_brightness_contrast (img : Image) (brightness : Int) (contrast : ℚ) : Image :=
  { img with pix := fun y x c =>
      (⌊clipQ ((img.pix y x c : ℚ) * contrast + brightness) 0 255⌋).toNat }

/-- Sample fetch with `cv2.BORDER_CONSTANT` border value 0, as used by
`cv2.warpAffine`'s default border mode. -/
def borderPix (img : Image) (y x : Int) (c : Nat) : ℚ :=
  if 0 ≤ y ∧ y < img.height ∧ 0 ≤ x ∧ x < img.width then img.pix y.toNat x.toNat c else 0

/-- The arbitrary-angle branch of `ImageProcessor.rotate_image`, evaluated at
angle 0.  There `cv2.getRotationMatrix2D(center, 0, 1.0)` is exactly the
identity matrix (cos 0 = 1 and sin 0 = 0 are exact floats), `new_w = w` and
`new_h = h` exactly, and the recentering terms `new_w/2 - w//2` and
`new_h/2 - h//2` are exactly `(w mod 2)/2` and `(h mod 2)/2`.  The resulting
`cv2.warpAffine` call is a pure translation by that half-pixel offset with
`INTER_LINEAR` bilinear interpolation and constant border 0:
`dst[y][x] = round(bilinear(src, x - tx, y - ty))` (the offsets 0 and 1/2 and
the weights 0, 1/4, 1/2, 1 are exactly representable in OpenCV's fixed-point
interpolation tables, and the store rounds to the nearest integer, never at a
tie for these weights). -/
def warpAffineDeg0 (img : Image) : Image :=
  { img with pix := fun y x c =>
      let tx : ℚ := (img.width % 2 : Nat) / 2
      let ty : ℚ := (img.height % 2 : Nat) / 2
      let fx : ℚ := (x : ℚ) - tx
      let fy : ℚ := (y : ℚ) - ty
      let x0 : Int := ⌊fx⌋
      let y0 : Int := ⌊fy⌋
      let dx : ℚ := fx - x0
      let dy : ℚ := fy - y0
      let v : ℚ := (1-dx)*(1-dy)*borderPix img y0 x0 c + dx*(1-dy)*borderPix img y0 (x0+1) c
                 + (1-dx)*dy*borderPix img (y0+1) x0 c + dx*dy*borderPix img (y0+1) (x0+1) c
      (⌊v + 1/2⌋).toNat }

/-- The instantiation of `rotate_image`'s external `warpAffine` parameter
used for concrete evaluation; theorems only ever evaluate it at angle 0,
where it agrees with the library call (`warpAffineDeg0`). -/
def warpDeg0 : Image → ℚ → Image := fun img _ => warpAffineDeg0 img

/-- A concrete 1×1 RGB image with every sample 255. -/
def onePix255 : Image := ⟨1, 1, some 3, fun _ _ _ => 255⟩

/-- A concrete 100×100 RGB image. -/
def img100 : Image := ⟨100, 100, some 3, fun y x c => (y * 3 + x + c) % 256⟩

/-- A concrete 2×2 RGB image with small distinct samples. -/
def img2x2 : Image := ⟨2, 2, some 3, fun y x c => y + 2 * x + 10 * c⟩

/-- A concrete 200×100 RGB image (width 200, height 100). -/
def img200x100 : Image := ⟨100, 200, some 3, fun y x c => (y + x + c) % 256⟩

inductive NoiseType where
  | gaussian
  | salt_pepper
deriving DecidableEq

inductive FilterType where
  | grayscale
  | sepia
  | invert
  | sobel_edge
  | canny_edge
  | emboss
deriving DecidableEq

/-- The external vision-library collaborators consumed by the operation
catalog (spec section 6): direct cv2 / numpy-random calls whose internals
live outside this repository.  The development is parameterized over them;
each field stands for exactly one library pipeline, already including the
repo-side clip/cast postprocessing applied on the same line, so every field
returns a `uint8` image.  Library-side rejections of bad parameters (cv2
raising on, say, a negative kernel size) happen inside these calls and are
not modeled. -/
structure ExtCalls where
  warpAffine : Image → ℚ → Image
  filter2dSharpen : Image → Image
  unsharpMask : Image → ℚ → Image
  gaussianBlur : Image → Int → Image
  medianBlur : Image → Int → Image
  bilateralFilter : Image → Int → Image
  cvtGray : Image → Image
  sepiaTransform : Image → Image
  sobelPipeline : Image → Image
  cannyPipeline : Image → Image
  embossPipeline : Image → Image
  resizeTo : Image → Int → Int → Image
  sampleNoise : Image → NoiseType → ℚ → Image

/-- `ImageProcessor.sharpen_image`: dispatch on `method`; an unrecognized
method returns the image unchanged. -/
def sharpen_image (ext : ExtCalls) (img : Image) (method : String) (strength : ℚ) : Image :=
  if method = "laplacian" then ext.filter2dSharpen img
  else if method = "unsharp_mask" then ext.unsharpMask img strength
  else img

/-- `ImageProcessor.blur_image`: dispatch on `blur_type`; an unrecognized
blur type returns the image unchanged. -/
def blur_image (ext : ExtCalls) (img : Image) (blur_type : String) (kernel_size : Int) : Image :=
  if blur_type = "gaussian" then ext.gaussianBlur img kernel_size
  else if blur_type = "median" then ext.medianBlur img kernel_size
  else if blur_type = "bilateral" then ext.bilateralFilter img kernel_size
  else img

/-- `ImageProcessor.apply_filter`: dispatch on the filter kind.  `invert` is
pure numpy (`255 - image`) and is modeled directly; the other five branches
are cv2 pipelines (`ExtCalls` fields). -/
def apply_filter (ext : ExtCalls) (img : Image) (filter_type : FilterType) : Image :=
  match filter_type with
  | .grayscale => ext.cvtGray img
  | .sepia => ext.sepiaTransform img
  | .invert => { img with pix := fun y x c => 255 - img.pix y x c }
  | .sobel_edge => ext.sobelPipeline img
  | .canny_edge => ext.cannyPipeline img
  | .emboss => ext.embossPipeline img

/-- `ImageProcessor.add_noise`: the unpacking `h, w, c = image.shape` raises
`ValueError("not enough values to unpack (expected 3, got 2)")` on a
2-dimensional array.  On a 3-dimensional array the noise is drawn from
`np.random` — an inherently random external sampler (`ExtCalls.sampleNoise`),
with the clip/cast folded into its `uint8` result. -/
def add_noise (ext : ExtCalls) (img : Image) (noise_type : NoiseType) (intensity : ℚ) :
    Except String Image :=
  match img.channels with
  | none => .error "not enough values to unpack (expected 3, got 2)"
  | some _ => .ok (ext.sampleNoise img noise_type intensity)

/-- `ImageProcessor.resize_image`: the aspect-ratio arithmetic is code-side
(Python floats embedded as exact rationals and `int(...)` truncation as
floor, which agree on the nonnegative sizes involved); the final
`cv2.resize` with `INTER_LANCZOS4` is external (`ExtCalls.resizeTo`).  A
zero-height input would raise `ZeroDivisionError` in Python; rational
division by zero stands in for it here, no claim evaluating this entry. -/
def resize_image (ext : ExtCalls) (img : Image) (width height : Int) (maintain_aspect : Bool) :
    Image :=
  if maintain_aspect then
    let aspect : ℚ := (img.width : ℚ) / (img.height : ℚ)
    if (width : ℚ) / (height : ℚ) > aspect then
      ext.resizeTo img ⌊(height : ℚ) * aspect⌋ height
    else
      ext.resizeTo img width ⌊(width : ℚ) / aspect⌋
  else
    ext.resizeTo img width height

/-- The keyword-argument bag of an `OperationRequest`: every parameter any
catalog entry reads via `kwargs.get(name, default)`, absent unless set. -/
structure Params where
  angle : Option ℚ
  x : Option Int
  y : Option Int
  width : Option Int
  height : Option Int
  horizontal : Option Bool
  brightness : Option Int
  contrast : Option ℚ
  method : Option String
  strength : Option ℚ
  noise_type : Option NoiseType
  intensity : Option ℚ
  blur_type : Option String
  kernel_size : Option Int
  filter_type : Option FilterType
  maintain_aspect : Option Bool

/-- The empty keyword-argument bag: every parameter missing. -/
def Params.empty : Params :=
  ⟨none, none, none, none, none, none, none, none, none, none, none, none, none,
   none, none, none⟩

/-- The designated real-time operation class (`real_time_operations` in
`threading_manager.py`). -/
def real_time_operations : List String := ["brightness_contrast"]

/-- `ImageProcessingWorker._execute_operation`: dispatch on the operation
name, reading each parameter with its `kwargs.get` default.  A raised Python
exception is an `.error` (the unknown-name `ValueError` and the `add_noise`
shape `ValueError` are the repo-side raises); external calls return images.
The `progress.emit(30)` prologue is accounted for in `worker_run`. -/
def execute_operation (ext : ExtCalls) (img : Image) (operation : String) (kw : Params) :
    Except String Image :=
  if operation = "rotate" then
    .ok (rotate_image ext.warpAffine img (kw.angle.getD 0))
  else if operation = "crop" then
    .ok (crop_image img (kw.x.getD 0) (kw.y.getD 0)
      (kw.width.getD img.width) (kw.height.getD img.height))
  else if operation = "flip" then
    .ok (flip_image img (kw.horizontal.getD true))
  else if operation = "brightness_contrast" then
    .ok (adjust_brightness_contrast img (kw.brightness.getD 0) (kw.contrast.getD 1))
  else if operation = "sharpen" then
    .ok (sharpen_image ext img (kw.method.getD "laplacian") (kw.strength.getD 1))
  else if operation = "add_noise" then
    add_noise ext img (kw.noise_type.getD NoiseType.gaussian) (kw.intensity.getD (1/10))
  else if operation = "blur" then
    .ok (blur_image ext img (kw.blur_type.getD "gaussian") (kw.kernel_size.getD 5))
  else if operation = "filter" then
    .ok (apply_filter ext img (kw.filter_type.getD FilterType.grayscale))
  else if operation = "resize" then
    .ok (resize_image ext img (kw.width.getD img.width) (kw.height.getD img.height)
      (kw.maintain_aspect.getD true))
  else
    .error ("Unknown operation: " ++ operation)

/-- Events delivered to the interface thread: the worker/manager signals
(`finished`, `error`, `progress`, `status_update`) plus a `started` marker
recording each `worker.start()` call, so that "never executed" is the
absence of a `started` event. -/
inductive Ev where
  | finished (result : Image)
  | error (msg : String)
  | progress (percent : Nat)
  | status (msg : String)
  | started (operation : String)

/-- An `OperationRequest`: the snapshotted image, the operation name and the
keyword arguments held by one `ImageProcessingWorker`. -/
structure Request where
  image : Image
  operation : String
  kwargs : Params

/-- `ImageProcessingWorker.run`: the status/progress chatter is suppressed
for real-time operations; a successful execution emits the milestone events
and `finished`, a raised exception emits one error event tagged
`"Error in <operation>: <message>"`.  (The `result is None` branch of the
source is unreachable: every catalog entry returns an array or raises.) -/
def worker_run (ext : ExtCalls) (req : Request) : List Ev :=
  let op := req.operation
  let pre : List Ev :=
    if op ∈ real_time_operations then []
    else [Ev.status ("Starting " ++ op ++ "..."), Ev.progress 10, Ev.progress 30]
  match execute_operation ext req.image op req.kwargs with
  | .ok result =>
      pre ++
        (if op ∈ real_time_operations then []
         else [Ev.progress 90, Ev.status ("Finalizing " ++ op ++ "..."),
               Ev.progress 100, Ev.status (op ++ " completed successfully")]) ++
        [Ev.finished result]
  | .error e => pre ++ [Ev.error ("Error in " ++ op ++ ": " ++ e)]

/-- `ThreadManager`'s mutable state: the current worker, the (never-consumed)
operation queue, and the busy flag. -/
structure TMState where
  current_worker : Option Request
  operation_queue : List Request
  is_processing : Bool

/-- `ThreadManager.cancel_current_operation`: if a worker is present (and
hence running while busy), terminate and clean it up, clear the busy flag
and emit the cancelled status; otherwise do nothing. -/
def cancel_current_operation (s : TMState) : TMState × List Ev :=
  match s.current_worker with
  | some _ =>
      ({ current_worker := none, operation_queue := s.operation_queue,
         is_processing := false },
       [Ev.status "Operation cancelled"])
  | none => (s, [])

/-- `ThreadManager.process_image`: returns whether the request was accepted,
the successor state, and the emitted events.  While busy, a real-time
request first cancels the current operation and then starts; any other
request is rejected with the busy error.  While idle, the request starts. -/
def process_image (s : TMState) (img : Image) (operation : String) (kw : Params) :
    Bool × TMState × List Ev :=
  if s.is_processing then
    if operation ∈ real_time_operations then
      ((cancel_current_operation s).1, (cancel_current_operation s).2) |> fun (s1, ev1) =>
        (true,
         { current_worker := some ⟨img, operation, kw⟩,
           operation_queue := s1.operation_queue, is_processing := true },
         ev1 ++ [Ev.started operation])
    else
      (false, s, [Ev.error "Another operation is already in progress"])
  else
    (true,
     { current_worker := some ⟨img, operation, kw⟩,
       operation_queue := s.operation_queue, is_processing := true },
     [Ev.started operation])

/-- `ThreadManager._on_processing_finished`: clear the busy flag, forward
the result, clean up the worker. -/
def on_processing_finished (s : TMState) (result : Image) : TMState × List Ev :=
  ({ current_worker := none, operation_queue := s.operation_queue,
     is_processing := false },
   [Ev.finished result])

/-- `ThreadManager._on_processing_error`: clear the busy flag, forward the
error message, clean up the worker. -/
def on_processing_error (s : TMState) (msg : String) : TMState × List Ev :=
  ({ current_worker := none, operation_queue := s.operation_queue,
     is_processing := false },
   [Ev.error msg])

/-- One named step of a `BatchJob`. -/
structure BatchOp where
  name : String
  params : Params

/-- The strictly sequential loop of `BatchProcessor`: submit step `idx`,
feed its result into the next step (`_on_operation_finished`), stop at the
first error with its step index (`_on_operation_error`).  The source's
cursor-and-callback loop is rendered as structural recursion on the
remaining steps, `idx` tracking `current_operation_index`. -/
def run_batch (ext : ExtCalls) : Image → List BatchOp → Nat → Except (Nat × String) Image
  | img, [], _ => .ok img
  | img, op :: rest, idx =>
    match execute_operation ext img op.name op.params with
    | .ok next => run_batch ext next rest (idx + 1)
    | .error e => .error (idx, e)

/-- The operation names actually dispatched by the batch loop, in order. -/
def batch_dispatched (ext : ExtCalls) : Image → List BatchOp → List String
  | _, [] => []
  | img, op :: rest =>
    match execute_operation ext img op.name op.params with
    | .ok next => op.name :: batch_dispatched ext next rest
    | .error _ => [op.name]

/-- `BatchProcessor.process_batch`: copies the image, resets the cursor, and
on an empty list immediately yields the input unchanged. -/
def process_batch (ext : ExtCalls) (img : Image) (operations : List BatchOp) :
    Except (Nat × String) Image :=
  run_batch ext img operations 0

/-- Concrete instantiation of the external collaborators, used only by
witnesses: `warpAffine` is its exact angle-0 value; no witness evaluates the
remaining fields (identity-shaped stand-ins). -/
def extW : ExtCalls :=
  { warpAffine := warpDeg0,
    filter2dSharpen := fun i => i,
    unsharpMask := fun i _ => i,
    gaussianBlur := fun i _ => i,
    medianBlur := fun i _ => i,
    bilateralFilter := fun i _ => i,
    cvtGray := fun i => i,
    sepiaTransform := fun i => i,
    sobelPipeline := fun i => i,
    cannyPipeline := fun i => i,
    embossPipeline := fun i => i,
    resizeTo := fun i _ _ => i,
    sampleNoise := fun i _ _ => i }

/-- A concrete 2-dimensional (grayscale) 2×2 image. -/
def gray2x2 : Image := ⟨2, 2, none, fun y x _ => y + 2 * x⟩

/-- A concrete dispatcher state with a rotate request in flight. -/
def busyState : TMState := ⟨some ⟨img2x2, "rotate", Params.empty⟩, [], true⟩

/-- A concrete flip step for batch witnesses. -/
def flipOp : BatchOp := ⟨"flip", Params.empty⟩

/-- A concrete unknown-named step for batch witnesses. -/
def bogusOp : BatchOp := ⟨"bogus", Params.empty⟩

/-- Claim C8: flipping horizontally twice returns an image pixel-identical to
the original. -/
theorem flip_involutive (img : Image) :
    ImEq (flip_image (flip_image img true) true) img := by
  refine ⟨rfl, rfl, rfl, ?_⟩
  intro y hy x hx c hc
  show img.pix y (img.width - 1 - (img.width - 1 - x)) c = img.pix y x c
  have hxx : img.width - 1 - (img.width - 1 - x) = x := by
    have : x < img.width := hx
    omega
  rw [hxx]

/-- Claim C7: identity parameters (brightness 0, contrast 1.0) produce a
pixel-identical image, for every `uint8` image. -/
theorem brightness_contrast_identity (img : Image) (hwf : img.Wf) :
    ImEq (adjust_brightness_contrast img 0 1) img := by
  refine ⟨rfl, rfl, rfl, ?_⟩
  intro y hy x hx c hc
  have hv : img.pix y x c ≤ 255 := hwf y hy x hx c hc
  show (⌊clipQ ((img.pix y x c : ℚ) * 1 + ((0 : Int) : ℚ)) 0 255⌋).toNat = img.pix y x c
  have h1 : ((img.pix y x c : ℚ) * 1 + ((0 : Int) : ℚ)) = (img.pix y x c : ℚ) := by
    push_cast
    ring
  have h2 : clipQ ((img.pix y x c : ℚ)) 0 255 = (img.pix y x c : ℚ) := by
    rw [clipQ, min_eq_left (by exact_mod_cast hv), max_eq_right (by positivity)]
  rw [h1, h2, Int.floor_natCast]
  omega

/-- Witness for C7 at a concrete 2×2 RGB image. -/
theorem brightness_contrast_identity_witness :
    img2x2.Wf ∧ ImEq (adjust_brightness_contrast img2x2 0 1) img2x2 :=
  ⟨by decide, brightness_contrast_identity img2x2 (by decide)⟩

/-- Claim C6 counterexample: on a 100×100 image, the request
`crop(x=0, y=0, width=-50, height=50)` returns an image of width 50 (the
negative slice endpoint wraps around under numpy slicing), which is not at
most the requested width -50. -/
theorem crop_negative_width_counterexample :
    (crop_image img100 0 0 (-50) 50).width = 50 ∧
      ¬ (((crop_image img100 0 0 (-50) 50).width : Int) ≤ -50) := by
  constructor
  · decide
  · decide

/-- Claim C6 (amended): the cropped image never exceeds the original bounds,
for any integer arguments; it is within the requested width/height whenever
those are nonnegative; and on a 100×100 image `crop(90, 90, 50, 50)` returns
the 10×10 region anchored at (90, 90). -/
theorem crop_bounds_amended (img : Image) (x y w h : Int) :
    (crop_image img x y w h).width ≤ img.width ∧
    (crop_image img x y w h).height ≤ img.height ∧
    (0 ≤ w → ((crop_image img x y w h).width : Int) ≤ w) ∧
    (0 ≤ h → ((crop_image img x y w h).height : Int) ≤ h) ∧
    (img.height = 100 → img.width = 100 →
      (crop_image img 90 90 50 50).height = 10 ∧
      (crop_image img 90 90 50 50).width = 10 ∧
      ∀ j i c, (crop_image img 90 90 50 50).pix j i c = img.pix (90 + j) (90 + i) c) := by
  refine ⟨?_, ?_, ?_, ?_, ?_⟩
  · simp only [crop_image, sliceLen, resolveIdx]
    split_ifs <;> omega
  · simp only [crop_image, sliceLen, resolveIdx]
    split_ifs <;> omega
  · intro hw
    simp only [crop_image, sliceLen, resolveIdx]
    split_ifs <;> omega
  · intro hh
    simp only [crop_image, sliceLen, resolveIdx]
    split_ifs <;> omega
  · intro h100 w100
    simp only [crop_image, sliceLen, resolveIdx, h100, w100]
    norm_num
    exact ⟨by decide, fun j i c => by rw [show Int.toNat 90 = 90 from rfl]⟩

/-- Witness for C6 at concrete inputs, discharging the nonnegativity and
100×100 hypotheses. -/
theorem crop_bounds_amended_witness :
    ((crop_image img100 0 0 5 5).width : Int) ≤ 5 ∧
      (crop_image img100 90 90 50 50).width = 10 :=
  ⟨(crop_bounds_amended img100 0 0 5 5).2.2.1 (by decide),
   ((crop_bounds_amended img100 0 0 5 5).2.2.2.2 rfl rfl).2.1⟩

/-- Claim C9 counterexample: rotation by 0 takes the arbitrary-angle
`warpAffine` path, which on an odd-dimension image translates by half a
pixel and interpolates.  On the all-255 1×1 image, two rotations by 0 (a
rotation and its inverse rotation) yield sample 16, not 255, so the result
is not content-equal to the original. -/
theorem rotate_zero_roundtrip_counterexample :
    ¬ ImEq (rotate_image warpDeg0 (rotate_image warpDeg0 onePix255 0) 0) onePix255 := by
  have hr : rotate_image warpDeg0 (rotate_image warpDeg0 onePix255 0) 0
      = warpAffineDeg0 (warpAffineDeg0 onePix255) := by
    norm_num [rotate_image, warpDeg0]
  rw [hr]
  intro hEq
  have hp : (warpAffineDeg0 (warpAffineDeg0 onePix255)).pix 0 0 0 = onePix255.pix 0 0 0 :=
    hEq.2.2.2 0 Nat.one_pos 0 Nat.one_pos 0 (by decide)
  have hv : (warpAffineDeg0 (warpAffineDeg0 onePix255)).pix 0 0 0 = 16 := by
    simp only [warpAffineDeg0, onePix255, borderPix]
    norm_num [show Int.toNat 64 = 64 from rfl]
    rfl
  rw [hv] at hp
  exact absurd hp (by decide)

/-- Claim C9 (amended): rotation by 90 swaps width and height (in particular
a 200×100 image yields a 100×200 image); for the axis-aligned angles 90, 180
and 270 the inverse rotation restores the original image exactly in pixel
dimensions and content; rotation by 0 preserves the pixel dimensions. -/
theorem rotate_roundtrip_amended (warpAffine : Image → ℚ → Image) (img : Image) :
    ((rotate_image warpAffine img 90).height = img.width ∧
     (rotate_image warpAffine img 90).width = img.height) ∧
    (img.width = 200 → img.height = 100 →
      (rotate_image warpAffine img 90).width = 100 ∧
      (rotate_image warpAffine img 90).height = 200) ∧
    ImEq (rotate_image warpAffine (rotate_image warpAffine img 90) 270) img ∧
    ImEq (rotate_image warpAffine (rotate_image warpAffine img 180) 180) img ∧
    ImEq (rotate_image warpAffine (rotate_image warpAffine img 270) 90) img ∧
    ((rotate_image warpDeg0 img 0).height = img.height ∧
     (rotate_image warpDeg0 img 0).width = img.width) := by
  have h90 : ∀ j, rotate_image warpAffine j 90 = rot90cw j := fun j => by
    norm_num [rotate_image]
  have h180 : ∀ j, rotate_image warpAffine j 180 = rot180 j := fun j => by
    norm_num [rotate_image]
  have h270 : ∀ j, rotate_image warpAffine j 270 = rot90ccw j := fun j => by
    norm_num [rotate_image]
  have h0 : rotate_image warpDeg0 img 0 = warpAffineDeg0 img := by
    norm_num [rotate_image, warpDeg0]
  refine ⟨?_, ?_, ?_, ?_, ?_, ?_⟩
  · rw [h90]
    exact ⟨rfl, rfl⟩
  · intro hw hh
    rw [h90]
    exact ⟨hh, hw⟩
  · rw [h90, h270]
    refine ⟨rfl, rfl, rfl, ?_⟩
    intro y hy x hx c hc
    show img.pix (img.height - 1 - (img.height - 1 - y)) x c = img.pix y x c
    have hyy : img.height - 1 - (img.height - 1 - y) = y := by
      have : y < img.height := hy
      omega
    rw [hyy]
  · rw [h180, h180]
    refine ⟨rfl, rfl, rfl, ?_⟩
    intro y hy x hx c hc
    show img.pix (img.height - 1 - (img.height - 1 - y))
        (img.width - 1 - (img.width - 1 - x)) c = img.pix y x c
    have hyy : img.height - 1 - (img.height - 1 - y) = y := by
      have : y < img.height := hy
      omega
    have hxx : img.width - 1 - (img.width - 1 - x) = x := by
      have : x < img.width := hx
      omega
    rw [hyy, hxx]
  · rw [h270, h90]
    refine ⟨rfl, rfl, rfl, ?_⟩
    intro y hy x hx c hc
    show img.pix y (img.width - 1 - (img.width - 1 - x)) c = img.pix y x c
    have hxx : img.width - 1 - (img.width - 1 - x) = x := by
      have : x < img.width := hx
      omega
    rw [hxx]
  · rw [h0]
    exact ⟨rfl, rfl⟩

/-- Witness for C9 at the concrete 200×100 image. -/
theorem rotate_roundtrip_amended_witness :
    (rotate_image warpDeg0 img200x100 90).width = 100 ∧
      (rotate_image warpDeg0 img200x100 90).height = 200 :=
  (rotate_roundtrip_amended warpDeg0 img200x100).2.1 rfl rfl

/-- Claim C1: while an operation is in flight, submitting a non-real-time
operation returns false, emits only the busy error event (so the caller is
told the system is busy), starts no worker and queues nothing (the request
is never executed), and leaves the dispatcher state — including the
in-flight request — unchanged. -/
theorem process_image_busy_rejects (s : TMState) (img : Image) (operation : String)
    (kw : Params) (hbusy : s.is_processing = true)
    (hrt : operation ∉ real_time_operations) :
    process_image s img operation kw
      = (false, s, [Ev.error "Another operation is already in progress"]) := by
  simp [process_image, hbusy, hrt]

/-- Witness for C1: a busy dispatcher rejects a crop request unchanged. -/
theorem process_image_busy_rejects_witness :
    process_image busyState img2x2 "crop" Params.empty
      = (false, busyState, [Ev.error "Another operation is already in progress"]) :=
  process_image_busy_rejects busyState img2x2 "crop" Params.empty rfl (by decide)

/-- Claim C2: while an operation is in flight, submitting an operation in
the real-time set (brightness_contrast) cancels the current execution (the
in-flight worker is discarded and the cancelled status emitted), then starts
the newly submitted operation and returns true. -/
theorem process_image_realtime_preempts (s : TMState) (img : Image) (operation : String)
    (kw : Params) (r : Request) (hbusy : s.is_processing = true)
    (hworker : s.current_worker = some r) (hrt : operation ∈ real_time_operations) :
    process_image s img operation kw
      = (true,
         { current_worker := some ⟨img, operation, kw⟩,
           operation_queue := s.operation_queue, is_processing := true },
         [Ev.status "Operation cancelled", Ev.started operation]) := by
  simp [process_image, cancel_current_operation, hbusy, hrt, hworker]

/-- Witness for C2: a busy dispatcher preempted by brightness_contrast. -/
theorem process_image_realtime_preempts_witness :
    process_image busyState img2x2 "brightness_contrast" Params.empty
      = (true,
         { current_worker := some ⟨img2x2, "brightness_contrast", Params.empty⟩,
           operation_queue := busyState.operation_queue, is_processing := true },
         [Ev.status "Operation cancelled", Ev.started "brightness_contrast"]) :=
  process_image_realtime_preempts busyState img2x2 "brightness_contrast" Params.empty
    ⟨img2x2, "rotate", Params.empty⟩ rfl rfl (by decide)

/-- Claim C4: whenever a dispatched operation fails internally (unknown
operation name, invalid parameters, or a processing exception — every
`.error` of `execute_operation`), the worker emits an error event whose
message embeds the failing operation name, the manager marks itself idle on
receiving it, and a subsequent submission is accepted. -/
theorem worker_error_reporting (ext : ExtCalls) (req : Request) (e : String)
    (s : TMState) (img2 : Image) (op2 : String) (kw2 : Params)
    (herr : execute_operation ext req.image req.operation req.kwargs = .error e) :
    worker_run ext req
      = (if req.operation ∈ real_time_operations then []
         else [Ev.status ("Starting " ++ req.operation ++ "..."), Ev.progress 10,
               Ev.progress 30])
        ++ [Ev.error ("Error in " ++ req.operation ++ ": " ++ e)] ∧
    List.IsInfix req.operation.data ("Error in " ++ req.operation ++ ": " ++ e).data ∧
    (on_processing_error s ("Error in " ++ req.operation ++ ": " ++ e)).1.is_processing
      = false ∧
    (process_image (on_processing_error s ("Error in " ++ req.operation ++ ": " ++ e)).1
        img2 op2 kw2).1 = true := by
  refine ⟨?_, ?_, rfl, ?_⟩
  · simp [worker_run, herr]
  · exact ⟨"Error in ".data, (": " ++ e).data, by simp [String.data_append, List.append_assoc]⟩
  · simp [process_image, on_processing_error]

/-- Witness for C4: an unknown-named request errors, the message names it,
and the dispatcher accepts a following flip request. -/
theorem worker_error_reporting_witness :
    worker_run extW ⟨img2x2, "bogus", Params.empty⟩
      = [Ev.status ("Starting " ++ "bogus" ++ "..."), Ev.progress 10, Ev.progress 30,
         Ev.error ("Error in " ++ "bogus" ++ ": " ++ ("Unknown operation: " ++ "bogus"))] ∧
    (process_image
        (on_processing_error busyState
          ("Error in " ++ "bogus" ++ ": " ++ ("Unknown operation: " ++ "bogus"))).1
        img2x2 "flip" Params.empty).1 = true := by
  have h := worker_error_reporting extW ⟨img2x2, "bogus", Params.empty⟩
    ("Unknown operation: " ++ "bogus") busyState img2x2 "flip" Params.empty rfl
  exact ⟨by simpa using h.1, h.2.2.2⟩

/-- Claim C5 counterexample: a flip request with its named parameter missing
does not fail with an invalid-parameter error — the default
`horizontal = true` is substituted and an image is returned. -/
theorem missing_param_returns_image :
    execute_operation extW img2x2 "flip" Params.empty = .ok (flip_image img2x2 true) := rfl

/-- Claim C5 (amended): a request with a missing named parameter does not
fail — the operation substitutes its `kwargs.get` default (flip defaults to
horizontal, crop to the full image at the origin, brightness/contrast to the
identity parameters); a selector outside the accepted set for sharpen or
blur returns the image unchanged rather than failing; failures arise for an
unknown operation name and for an image the operation cannot process (a
2-dimensional image passed to add_noise).  Range checks on numeric
parameters live inside the external vision library, not in this code. -/
theorem param_handling_amended (ext : ExtCalls) (img : Image) (kw : Params)
    (operation m b : String) :
    execute_operation ext img "flip" Params.empty = .ok (flip_image img true) ∧
    execute_operation ext img "crop" Params.empty
      = .ok (crop_image img 0 0 img.width img.height) ∧
    execute_operation ext img "brightness_contrast" Params.empty
      = .ok (adjust_brightness_contrast img 0 1) ∧
    (m ≠ "laplacian" → m ≠ "unsharp_mask" → sharpen_image ext img m 1 = img) ∧
    (b ≠ "gaussian" → b ≠ "median" → b ≠ "bilateral" → blur_image ext img b 5 = img) ∧
    (operation ∉ ["rotate", "crop", "flip", "brightness_contrast", "sharpen",
        "add_noise", "blur", "filter", "resize"] →
      execute_operation ext img operation kw
        = .error ("Unknown operation: " ++ operation)) ∧
    (img.channels = none →
      execute_operation ext img "add_noise" Params.empty
        = .error "not enough values to unpack (expected 3, got 2)") := by
  refine ⟨rfl, rfl, rfl, ?_, ?_, ?_, ?_⟩
  · intro h1 h2
    simp [sharpen_image, h1, h2]
  · intro h1 h2 h3
    simp [blur_image, h1, h2, h3]
  · intro hmem
    simp only [List.mem_cons, List.not_mem_nil, or_false, not_or] at hmem
    obtain ⟨h1, h2, h3, h4, h5, h6, h7, h8, h9⟩ := hmem
    simp [execute_operation, h1, h2, h3, h4, h5, h6, h7, h8, h9]
  · intro hch
    simp [execute_operation, add_noise, hch]

/-- Witness for C5 at concrete inputs: unknown name, grayscale add_noise,
and an unrecognized sharpen method. -/
theorem param_handling_amended_witness :
    execute_operation extW gray2x2 "bogus" Params.empty
      = .error ("Unknown operation: " ++ "bogus") ∧
    execute_operation extW gray2x2 "add_noise" Params.empty
      = .error "not enough values to unpack (expected 3, got 2)" ∧
    sharpen_image extW gray2x2 "swirl" 1 = gray2x2 :=
  ⟨(param_handling_amended extW gray2x2 Params.empty "bogus" "swirl" "box").2.2.2.2.2.1
      (by decide),
   (param_handling_amended extW gray2x2 Params.empty "bogus" "swirl" "box").2.2.2.2.2.2 rfl,
   (param_handling_amended extW gray2x2 Params.empty "bogus" "swirl" "box").2.2.2.1
      (by decide) (by decide)⟩

/-- Claim C10: `add_noise` requires a 3-dimensional image: on every
2-dimensional grayscale image, for every noise type and intensity, it raises
instead of returning an image, and a worker dispatching it surfaces the
raise as an error event. -/
theorem add_noise_grayscale_errors (ext : ExtCalls) (img : Image) (nt : NoiseType)
    (intensity : ℚ) (kw : Params) (hch : img.channels = none) :
    add_noise ext img nt intensity
      = .error "not enough values to unpack (expected 3, got 2)" ∧
    worker_run ext ⟨img, "add_noise", kw⟩
      = [Ev.status ("Starting " ++ "add_noise" ++ "..."), Ev.progress 10, Ev.progress 30,
         Ev.error ("Error in " ++ "add_noise" ++ ": "
           ++ "not enough values to unpack (expected 3, got 2)")] := by
  have hexec : execute_operation ext img "add_noise" kw
      = .error "not enough values to unpack (expected 3, got 2)" := by
    simp [execute_operation, add_noise, hch]
  constructor
  · simp [add_noise, hch]
  · simp [worker_run, hexec, real_time_operations]

/-- Witness for C10 at the concrete grayscale 2×2 image. -/
theorem add_noise_grayscale_errors_witness :
    add_noise extW gray2x2 NoiseType.gaussian (1/10)
      = .error "not enough values to unpack (expected 3, got 2)" :=
  (add_noise_grayscale_errors extW gray2x2 NoiseType.gaussian (1/10) Params.empty rfl).1

/-- Claim C3: the batch sequencer yields the input unchanged on the empty
list; on `[opA, opB]` with both steps succeeding it yields exactly the image
obtained by applying opA and then opB; and when opA fails, opB is never
dispatched (only opA's name is ever submitted) and the failure carries step
index 0. -/
theorem process_batch_spec (ext : ExtCalls) (img tmp res : Image) (a b : BatchOp)
    (e : String) :
    process_batch ext img [] = .ok img ∧
    (execute_operation ext img a.name a.params = .ok tmp →
      execute_operation ext tmp b.name b.params = .ok res →
      process_batch ext img [a, b] = .ok res) ∧
    (execute_operation ext img a.name a.params = .error e →
      process_batch ext img [a, b] = .error (0, e) ∧
      batch_dispatched ext img [a, b] = [a.name]) := by
  refine ⟨rfl, ?_, ?_⟩
  · intro ha hb
    simp [process_batch, run_batch, ha, hb]
  · intro ha
    exact ⟨by simp [process_batch, run_batch, ha], by simp [batch_dispatched, ha]⟩

/-- Witness for C3: two flips chain to the double flip; an unknown first
step stops the batch before the second step is dispatched. -/
theorem process_batch_spec_witness :
    process_batch extW img2x2 [flipOp, flipOp]
      = .ok (flip_image (flip_image img2x2 true) true) ∧
    batch_dispatched extW img2x2 [bogusOp, flipOp] = ["bogus"] :=
  ⟨(process_batch_spec extW img2x2 (flip_image img2x2 true)
      (flip_image (flip_image img2x2 true) true) flipOp flipOp "z").2.1 rfl rfl,
   ((process_batch_spec extW img2x2 img2x2 img2x2 bogusOp flipOp
      ("Unknown operation: " ++ "bogus")).2.2 rfl).2⟩
